import Mathlib

/-!
A verification development for the GitHub profile statistics repository.

Two programs are embedded:

* `generate_stats.py` — fetches GitHub statistics, computes a rank
  (weighted log-normal blend mapped to a letter grade) and renders an SVG
  card.  The numeric code uses Python floats; the embedding idealises
  float arithmetic as real arithmetic (`ℝ`).
* `update_fact.py` — replaces the payload of a "Fun fact" marker line in
  a README via a regular-expression substitution, inserting a fresh line
  after a fixed anchor line when the substitution left the text unchanged.

Namespace `GenStats` embeds the first program, `UpdateFact` the second.
-/

namespace GenStats

/-- The aggregated counts returned by `fetch_github_stats` (the dictionary
built at the end of that function).  All counts are non-negative integers. -/
structure RawStats where
  name : String
  stars : ℕ
  commits : ℕ
  prs : ℕ
  issues : ℕ
  contributed_to : ℕ
  reviews : ℕ
  followers : ℕ
  repos : ℕ

/-- Helper modelling the Python f-string `f"{n / den:.1f}"` on a
non-negative integer `n` and positive divisor `den`: the quotient rounded
to one decimal place with ties rounded to even (Python float formatting
rounds half to even; the binary float value is idealised as the exact
rational `n / den`). -/
def fmt1f (n den : ℕ) : String :=
  let t := n * 10
  let q := t / den
  let r := t % den
  let scaled :=
    if 2 * r < den then q
    else if den < 2 * r then q + 1
    else if q % 2 = 0 then q else q + 1
  toString (scaled / 10) ++ "." ++ toString (scaled % 10)

/-- `format_number` from `generate_stats.py`: format a count with a
`k` / `M` suffix. -/
def format_number (n : ℕ) : String :=
  if n ≥ 1000000 then fmt1f n 1000000 ++ "M"
  else if n ≥ 1000 then fmt1f n 1000 ++ "k"
  else toString n

/-- `log_norm` from `calculate_rank` in `generate_stats.py`: a log-normal
CDF approximation.  The call sites pass integer values and medians and the
rational spreads `1.5` / `1.0`; Python float arithmetic is idealised as
real arithmetic. -/
noncomputable def log_norm (value median : ℕ) (spread : ℚ) : ℝ :=
  if value ≤ 0 then 0
  else
    let log_val := Real.log ((value : ℝ) + 1)
    let log_med := Real.log ((median : ℝ) + 1)
    let z := (log_val - log_med) / (spread : ℝ)
    0.5 * (1 + Real.tanh (z * 0.7))

/-- The local variable `score` of `calculate_rank`: the weighted sum of the
seven per-metric sub-scores, with the medians, spreads and weights of the
source. -/
noncomputable def rank_score (stats : RawStats) : ℝ :=
  log_norm stats.commits 250 1.5 * 0.30 +
  log_norm stats.prs 50 1.5 * 0.20 +
  log_norm stats.issues 25 1.5 * 0.10 +
  log_norm stats.reviews 10 1.5 * 0.10 +
  log_norm stats.stars 50 1.5 * 0.15 +
  log_norm stats.followers 10 1.5 * 0.05 +
  log_norm stats.contributed_to 5 1.0 * 0.10

/-- The `ranks` table of `calculate_rank`: descending thresholds paired
with rank labels. -/
noncomputable def ranks : List (ℝ × String) :=
  [(0.95, "S+"), (0.85, "S"), (0.75, "A++"), (0.65, "A+"),
   (0.50, "A"), (0.35, "B+"), (0.20, "B")]

/-- The rank-selection loop of `calculate_rank`: starting from
`rank_label = "C"`, take the first pair whose threshold the score meets or
exceeds and stop. -/
noncomputable def pick_rank (score : ℝ) : List (ℝ × String) → String
  | [] => "C"
  | (threshold, label) :: rest =>
    if score ≥ threshold then label else pick_rank score rest

/-- `calculate_rank` from `generate_stats.py`: the rank label and the
score clamped to at most `1.0`. -/
noncomputable def calculate_rank (stats : RawStats) : String × ℝ :=
  (pick_rank (rank_score stats) ranks, min (rank_score stats) 1)

/-- Modelled from the spec (for the refinement claim about the score
formula): `subscore(value, median, spread) = 0 if value <= 0, else
0.5*(1+tanh(0.7*(ln(value+1)-ln(median+1))/spread))`. -/
noncomputable def subscore_spec (value median spread : ℝ) : ℝ :=
  if value ≤ 0 then 0
  else 0.5 * (1 + Real.tanh (0.7 * (Real.log (value + 1) - Real.log (median + 1)) / spread))

/-- One row of the `items` list of `generate_svg`: icon, label and count. -/
structure StatRow where
  icon : String
  label : String
  value : ℕ

/-- The content `generate_svg` embeds into the SVG text.  The textual
serialisation (the surrounding fixed markup) is abstracted away; each
field records the datum the corresponding template placeholder receives.
The card carries exactly one progress ring (the `ringCircumference` /
`progressOffset` / `rankColor` group renders it). -/
structure SvgCard where
  cardWidth : ℕ
  cardHeight : ℕ
  titleName : String
  rows : List StatRow
  ringRadius : ℕ
  ringCircumference : ℝ
  progressOffset : ℝ
  rankLabel : String
  rankColor : String
  rankFontSize : ℕ

/-- The `rank_colors` dictionary of `generate_svg`. -/
def rank_colors : List (String × String) :=
  [("S+", "#FFD700"), ("S", "#FFD700"),
   ("A++", "#F5A623"), ("A+", "#F5A623"), ("A", "#F5A623"),
   ("B+", "#4CAF50"), ("B", "#4CAF50"),
   ("C", "#9f9f9f")]

/-- `generate_svg` from `generate_stats.py`, embedded as the structured
content of the card (five metric rows, one progress ring). -/
noncomputable def generate_svg (stats : RawStats) : SvgCard :=
  let rank := calculate_rank stats
  let ring_r : ℕ := 40
  let ring_circumference : ℝ := 2 * 3.14159 * (ring_r : ℝ)
  { cardWidth := 495
    cardHeight := 195
    titleName := stats.name
    rows := [⟨"⭐", "Total Stars Earned", stats.stars⟩,
             ⟨"📝", "Total Commits", stats.commits⟩,
             ⟨"🔀", "Total PRs", stats.prs⟩,
             ⟨"🔴", "Total Issues", stats.issues⟩,
             ⟨"📦", "Contributed to", stats.contributed_to⟩]
    ringRadius := ring_r
    ringCircumference := ring_circumference
    progressOffset := ring_circumference * (1 - rank.2)
    rankLabel := rank.1
    rankColor := (rank_colors.lookup rank.1).getD "#F5A623"
    rankFontSize := if rank.1.length ≤ 2 then 28 else 22 }

/-- The outcome of the single HTTP call of `fetch_github_stats`: either a
transport-level `urllib.error.HTTPError`, or a decoded JSON document that
either carries an `errors` key (rendered here as its printed text) or
parses into the stats dictionary. -/
inductive FetchOutcome where
  | httpError (code : ℕ) (reason : String)
  | success (hasErrors : Bool) (errorsText : String) (stats : RawStats)

/-- The observable result of one run of `main`: the process exit code, the
failure report printed before a failing exit (if any), and the SVG card
written to the output file (if the run got that far). -/
structure RunResult where
  exitCode : ℕ
  errorMsg : Option String
  written : Option SvgCard

/-- `main` (plus the error handling of `fetch_github_stats`) from
`generate_stats.py`, as a function of the environment (is `GITHUB_TOKEN`
set?) and the fetch outcome.  `sys.exit(1)` is the exit code 1 with no
file written; a completed run writes the SVG and exits 0. -/
noncomputable def run_main (tokenPresent : Bool) (outcome : FetchOutcome) : RunResult :=
  if !tokenPresent then
    ⟨1, some "❌ GITHUB_TOKEN environment variable is required", none⟩
  else
    match outcome with
    | .httpError code reason =>
      ⟨1, some ("❌ GitHub API error: " ++ toString code ++ " " ++ reason), none⟩
    | .success true errorsText _ =>
      ⟨1, some ("❌ GraphQL errors: " ++ errorsText), none⟩
    | .success false _ stats =>
      ⟨0, none, some (generate_svg stats)⟩

end GenStats

namespace UpdateFact

/-- The literal part `- ⚡ Fun fact **` of the pattern
`r'(- ⚡ Fun fact \*\*).*?(\*\*)'` of `update_fact.py` (capture group 1). -/
def funFactMarker : List Char := "- ⚡ Fun fact **".data

/-- The closing literal `\*\*` of the pattern (capture group 2). -/
def closeStars : List Char := "**".data

/-- The literal anchor of the fallback pattern
`r'(- 📫 How to reach me \*\*surajyadav200701@gmail\.com\*\*)'`. -/
def emailAnchor : List Char := "- 📫 How to reach me **surajyadav200701@gmail.com**".data

/-- The lazy tail `.*?(\*\*)` of the fun-fact pattern, at a fixed start
position: the shortest payload (`.` never matches a newline) followed by
`**`.  Returns the payload and the text after the match, `none` when the
pattern cannot close from this position. -/
def findClose : List Char → Option (List Char × List Char)
  | [] => none
  | c :: rest =>
    if closeStars.isPrefixOf (c :: rest) then some ([], rest.drop 1)
    else if c = '\n' then none
    else (findClose rest).map fun pr => (c :: pr.1, pr.2)

theorem findClose_some : ∀ {xs p after : List Char},
    findClose xs = some (p, after) → xs = p ++ closeStars ++ after ∧ '\n' ∉ p := by
  intro xs
  induction xs with
  | nil => intro p after h; simp [findClose] at h
  | cons c rest ih =>
    intro p after h
    simp only [findClose] at h
    split at h
    · next hpre =>
      simp only [Option.some.injEq, Prod.mk.injEq] at h
      obtain ⟨rfl, rfl⟩ := h
      have hp : closeStars <+: c :: rest := by
        simpa using List.isPrefixOf_iff_prefix.mp hpre
      obtain ⟨t, ht⟩ := hp
      have hlen : closeStars.length = 2 := rfl
      have : t = rest.drop 1 := by
        have := congrArg (List.drop closeStars.length) ht
        simpa [hlen, List.drop_append] using this
      subst this
      constructor
      · simpa using ht.symm
      · simp
    · next =>
      split at h
      · exact absurd h (by simp)
      · next hnl =>
        obtain ⟨⟨p', after'⟩, hfc, hmk⟩ := Option.map_eq_some'.mp h
        simp only [Prod.mk.injEq] at hmk
        obtain ⟨rfl, rfl⟩ := hmk
        obtain ⟨hrest, hnp⟩ := ih hfc
        refine ⟨by simpa using congrArg (c :: ·) hrest, ?_⟩
        simp only [List.mem_cons, not_or]
        exact ⟨fun hc => hnl hc.symm, hnp⟩

theorem findClose_length {xs p after : List Char}
    (h : findClose xs = some (p, after)) : after.length < xs.length := by
  have := (findClose_some h).1
  subst this
  simp [closeStars]
  omega

/-- Prepend a character to the leading gap of a decomposition. -/
def consGap (c : Char) :
    List (List Char × List Char) × List Char → List (List Char × List Char) × List Char
  | ([], t) => ([], c :: t)
  | ((g, p) :: ms, t) => ((c :: g, p) :: ms, t)

/-- Decompose a text into the non-overlapping, left-to-right matches of
the fun-fact pattern, exactly as `re.sub` scans: a list of
(gap, payload) pairs — the text before the match and the text the lazy
group captured — and the trailing gap after the last match. -/
def decomp : List Char → List (List Char × List Char) × List Char
  | [] => ([], [])
  | c :: rest =>
    if funFactMarker.isPrefixOf (c :: rest) then
      match h : findClose ((c :: rest).drop funFactMarker.length) with
      | some (p, after) =>
        let d := decomp after
        (([], p) :: d.1, d.2)
      | none => consGap c (decomp rest)
    else consGap c (decomp rest)
  termination_by xs => xs.length
  decreasing_by
    · have h1 := findClose_length h
      have h2 : ((c :: rest).drop funFactMarker.length).length =
          (c :: rest).length - funFactMarker.length := by
        simp
      simp only [List.length_cons] at *
      omega
    · simp
    · simp

/-- Rebuild a text from its decomposition, keeping the original payloads. -/
def recompose (d : List (List Char × List Char) × List Char) : List Char :=
  d.1.foldr (fun gp acc => gp.1 ++ funFactMarker ++ gp.2 ++ closeStars ++ acc) d.2

/-- Rebuild a text from its decomposition, substituting the expanded
replacement text for every whole match. -/
def recomposeWith (repl : List Char) (d : List (List Char × List Char) × List Char) :
    List Char :=
  d.1.foldr (fun gp acc => gp.1 ++ repl ++ acc) d.2

/-- Is `c` one of the octal digits `0`–`7`? -/
def isOctalDigit (c : Char) : Bool := '0' ≤ c && c ≤ '7'

/-- CPython's parse of the replacement template `f'\\1{new_fact}\\2'`
built by `update_readme` (`re._parser.parse_template`), for facts free of
backslashes — every entry of `CS_FACTS` is.  For the fun-fact pattern,
group 1 always captures `- ⚡ Fun fact **` and group 2 `**`, so a valid
template expands to a fixed replacement text.  After `\1` the parser
greedily consumes a second digit from the head of the fact; three octal
digits in a row (`1`, then two octal fact digits) form an octal character
escape (which swallows the group reference and the fact's first two
characters), otherwise the two digits form the group reference `1d`,
which exceeds the pattern's two groups and raises
`re.error: invalid group reference`.  The error is raised when the
template is compiled, before the document is scanned, even if nothing
matches. -/
def factReplacement (fact : List Char) : Except String (List Char) :=
  match fact with
  | [] => .ok (funFactMarker ++ closeStars)
  | c1 :: rest =>
    if c1.isDigit then
      match rest with
      | c2 :: rest2 =>
        if isOctalDigit c1 && isOctalDigit c2 then
          .ok (Char.ofNat (64 + 8 * (c1.toNat - 48) + (c2.toNat - 48)) :: rest2 ++ closeStars)
        else
          .error ("invalid group reference " ++ toString (10 + (c1.toNat - 48)) ++
            " at position 1")
      | [] =>
        .error ("invalid group reference " ++ toString (10 + (c1.toNat - 48)) ++
          " at position 1")
    else .ok (funFactMarker ++ (c1 :: rest) ++ closeStars)

/-- `re.sub(pattern, f'\\1{new_fact}\\2', content)` for the fun-fact
pattern: compile the replacement template (raising `re.error` for a
digit-initial fact whose digits do not extend `\1` to an octal escape),
then substitute its expansion for every match. -/
def subFact (fact content : String) : Except String String :=
  match factReplacement fact.data with
  | .error e => .error e
  | .ok repl => .ok ⟨recomposeWith repl (decomp content.data)⟩

/-- Prepend a character to the leading gap of an anchor decomposition. -/
def consGapA (c : Char) : List (List Char) × List Char → List (List Char) × List Char
  | ([], t) => ([], c :: t)
  | (g :: gs, t) => ((c :: g) :: gs, t)

/-- Decompose a text into the left-to-right occurrences of the literal
email-anchor pattern: the gaps before each occurrence and the trailing
gap. -/
def decompAnchor : List Char → List (List Char) × List Char
  | [] => ([], [])
  | c :: rest =>
    if emailAnchor.isPrefixOf (c :: rest) then
      let d := decompAnchor ((c :: rest).drop emailAnchor.length)
      ([] :: d.1, d.2)
    else consGapA c (decompAnchor rest)
  termination_by xs => xs.length
  decreasing_by
    · have h2 : ((c :: rest).drop emailAnchor.length).length =
          (c :: rest).length - emailAnchor.length := by
        simp
      have h3 : 0 < emailAnchor.length := by decide
      simp only [List.length_cons] at *
      omega
    · simp

/-- Rebuild a text from an anchor decomposition, keeping each anchor. -/
def recomposeAnchor (d : List (List Char) × List Char) : List Char :=
  d.1.foldr (fun g acc => g ++ emailAnchor ++ acc) d.2

/-- The fallback replacement `f'\\1\n- ⚡ Fun fact **{new_fact}**'`: the
anchor followed by a freshly inserted fun-fact line.  This template never
fails to compile for a backslash-free fact: `\1` is followed by a literal
newline character (not a digit), and the fact sits after `**`, so it is
read as plain literal text. -/
def anchorRepl (fact : List Char) : List Char :=
  emailAnchor ++ '\n' :: (funFactMarker ++ fact ++ closeStars)

/-- Rebuild a text from an anchor decomposition with the fallback
replacement substituted for every anchor occurrence. -/
def recomposeAnchorWith (fact : List Char) (d : List (List Char) × List Char) : List Char :=
  d.1.foldr (fun g acc => g ++ anchorRepl fact ++ acc) d.2

/-- `re.sub(email_pattern, ..., content)`: insert a fun-fact line after
every occurrence of the anchor. -/
def subAnchor (fact content : String) : String :=
  ⟨recomposeAnchorWith fact.data (decompAnchor content.data)⟩

/-- Does the fun-fact pattern match anywhere in the text? -/
def hasMarker (content : String) : Bool :=
  !(decomp content.data).1.isEmpty

/-- `update_readme` from `update_fact.py`, with the file reads and writes
and the random choice abstracted into the `content` and `fact` arguments:
substitute the fun-fact pattern — an `re.error` raised there propagates
and the function crashes with nothing written (`.error`); otherwise, if
the substitution left the text unchanged, fall back to inserting a
fun-fact line after the email anchor. -/
def update_readme (fact content : String) : Except String String :=
  match subFact fact content with
  | .error e => .error e
  | .ok updated =>
    .ok (if updated = content then subAnchor fact content else updated)

/-- The module-level `CS_FACTS` list the random fact is drawn from. -/
def CS_FACTS : List String :=
  ["The first computer bug was an actual moth found in Harvard's Mark II computer in 1947.",
   "The first domain name ever registered was symbolics.com on March 15, 1985.",
   "Python was named after Monty Python, not the snake.",
   "The first 1GB hard drive, released in 1980, weighed over 500 pounds and cost $40,000.",
   "The first computer mouse was made of wood and invented by Doug Engelbart in 1964.",
   "CAPTCHA stands for 'Completely Automated Public Turing test to tell Computers and Humans Apart'.",
   "The first programming language was Fortran, developed in 1957 by IBM.",
   "The term 'debugging' was popularized by Grace Hopper after finding the moth.",
   "The first computer virus was created in 1983 and was called 'Elk Cloner'.",
   "Google's original name was 'Backrub'.",
   "The first webcam was created at Cambridge University to monitor a coffee pot.",
   "The average person blinks 20 times per minute, but only 7 times per minute when using a computer.",
   "The first electronic computer, ENIAC, weighed 30 tons and took up 1800 square feet.",
   "90% of the world's currency only exists on computers.",
   "The first computer game, 'Spacewar!', was created in 1962 at MIT.",
   "Email existed before the World Wide Web.",
   "The QWERTY keyboard layout was designed to slow down typing to prevent typewriter jams.",
   "The first computer programmer was Ada Lovelace in the 1840s.",
   "Facebook's blue color scheme is because Mark Zuckerberg is red-green colorblind.",
   "The 'Save' icon is a floppy disk, which many young people have never seen.",
   "YouTube was originally designed as a video dating site.",
   "The first Apple logo featured Sir Isaac Newton sitting under an apple tree.",
   "C programming language was created in just one year.",
   "The term 'cyberspace' was coined by sci-fi author William Gibson in 1982.",
   "Linux is named after its creator Linus Torvalds.",
   "The first banner ad on the web had a 44% click-through rate.",
   "HP, Microsoft, and Apple all started in garages.",
   "The first alarm clock could only ring at 4 AM.",
   "NASA's Apollo 11 guidance computer had less processing power than a modern smartphone.",
   "The first known computer password was used in the early 1960s at MIT."]

theorem recompose_consGap (c : Char) (d : List (List Char × List Char) × List Char) :
    recompose (consGap c d) = c :: recompose d := by
  obtain ⟨ms, t⟩ := d
  cases ms with
  | nil => simp [consGap, recompose]
  | cons gp ms =>
    obtain ⟨g, p⟩ := gp
    simp [consGap, recompose]

theorem recomposeWith_consGap (repl : List Char) (c : Char)
    (d : List (List Char × List Char) × List Char) :
    recomposeWith repl (consGap c d) = c :: recomposeWith repl d := by
  obtain ⟨ms, t⟩ := d
  cases ms with
  | nil => simp [consGap, recomposeWith]
  | cons gp ms =>
    obtain ⟨g, p⟩ := gp
    simp [consGap, recomposeWith]

theorem decomp_cons_match {c : Char} {rest p after : List Char}
    (hpre : funFactMarker.isPrefixOf (c :: rest))
    (h : findClose ((c :: rest).drop funFactMarker.length) = some (p, after)) :
    decomp (c :: rest) = (([], p) :: (decomp after).1, (decomp after).2) := by
  rw [decomp, if_pos hpre]
  split
  · next p' after' heq =>
    have := (h.symm.trans heq)
    simp only [Option.some.injEq, Prod.mk.injEq] at this
    obtain ⟨rfl, rfl⟩ := this
    rfl
  · next heq => exact absurd (h.symm.trans heq) (by simp)

theorem decomp_cons_noclose {c : Char} {rest : List Char}
    (hpre : funFactMarker.isPrefixOf (c :: rest))
    (h : findClose ((c :: rest).drop funFactMarker.length) = none) :
    decomp (c :: rest) = consGap c (decomp rest) := by
  rw [decomp, if_pos hpre]
  split
  · next p' after' heq => exact absurd (h.symm.trans heq) (by simp)
  · rfl

theorem decomp_cons_skip {c : Char} {rest : List Char}
    (hpre : ¬ funFactMarker.isPrefixOf (c :: rest)) :
    decomp (c :: rest) = consGap c (decomp rest) := by
  rw [decomp, if_neg hpre]

theorem recompose_decomp : ∀ l : List Char, recompose (decomp l) = l := by
  intro l
  induction l using decomp.induct with
  | case1 => simp [decomp, recompose]
  | case2 c rest hpre p after h ih =>
    rw [decomp_cons_match hpre h]
    have hd : funFactMarker ++ (c :: rest).drop funFactMarker.length = c :: rest := by
      have := List.isPrefixOf_iff_prefix.mp hpre
      exact List.prefix_iff_eq_append.mp (by simpa using this)
    have hdrop := (findClose_some h).1
    calc recompose (([], p) :: (decomp after).1, (decomp after).2)
        = funFactMarker ++ p ++ closeStars ++ recompose (decomp after) := by
          simp [recompose]
      _ = funFactMarker ++ p ++ closeStars ++ after := by rw [ih]
      _ = c :: rest := by
          rw [← hd, hdrop]
          simp
  | case3 c rest hpre h ih =>
    rw [decomp_cons_noclose hpre h, recompose_consGap, ih]
  | case4 c rest hpre ih =>
    rw [decomp_cons_skip hpre, recompose_consGap, ih]

theorem consGap_payloads (c : Char) (d : List (List Char × List Char) × List Char) :
    (consGap c d).1.map Prod.snd = d.1.map Prod.snd := by
  obtain ⟨ms, t⟩ := d
  cases ms with
  | nil => simp [consGap]
  | cons gp ms =>
    obtain ⟨g, p⟩ := gp
    simp [consGap]

theorem decomp_payloads_no_newline :
    ∀ l : List Char, ∀ p ∈ (decomp l).1.map Prod.snd, '\n' ∉ p := by
  intro l
  induction l using decomp.induct with
  | case1 => simp [decomp]
  | case2 c rest hpre p after h ih =>
    rw [decomp_cons_match hpre h]
    intro q hq
    simp only [List.map_cons, List.mem_cons] at hq
    rcases hq with rfl | hq
    · exact (findClose_some h).2
    · exact ih q hq
  | case3 c rest hpre h ih =>
    rw [decomp_cons_noclose hpre h, consGap_payloads]
    exact ih
  | case4 c rest hpre ih =>
    rw [decomp_cons_skip hpre, consGap_payloads]
    exact ih

theorem decompAnchor_cons_match {c : Char} {rest : List Char}
    (hpre : emailAnchor.isPrefixOf (c :: rest)) :
    decompAnchor (c :: rest) =
      ([] :: (decompAnchor ((c :: rest).drop emailAnchor.length)).1,
       (decompAnchor ((c :: rest).drop emailAnchor.length)).2) := by
  rw [decompAnchor, if_pos hpre]

theorem decompAnchor_cons_skip {c : Char} {rest : List Char}
    (hpre : ¬ emailAnchor.isPrefixOf (c :: rest)) :
    decompAnchor (c :: rest) = consGapA c (decompAnchor rest) := by
  rw [decompAnchor, if_neg hpre]

theorem recomposeAnchor_consGapA (c : Char) (d : List (List Char) × List Char) :
    recomposeAnchor (consGapA c d) = c :: recomposeAnchor d := by
  obtain ⟨gs, t⟩ := d
  cases gs with
  | nil => simp [consGapA, recomposeAnchor]
  | cons g gs => simp [consGapA, recomposeAnchor]

theorem recomposeAnchorWith_consGapA (fact : List Char) (c : Char)
    (d : List (List Char) × List Char) :
    recomposeAnchorWith fact (consGapA c d) = c :: recomposeAnchorWith fact d := by
  obtain ⟨gs, t⟩ := d
  cases gs with
  | nil => simp [consGapA, recomposeAnchorWith]
  | cons g gs => simp [consGapA, recomposeAnchorWith]

theorem recomposeAnchor_decompAnchor :
    ∀ l : List Char, recomposeAnchor (decompAnchor l) = l := by
  intro l
  induction l using decompAnchor.induct with
  | case1 => simp [decompAnchor, recomposeAnchor]
  | case2 c rest hpre ih =>
    rw [decompAnchor_cons_match hpre]
    have hd : emailAnchor ++ (c :: rest).drop emailAnchor.length = c :: rest := by
      have := List.isPrefixOf_iff_prefix.mp hpre
      exact List.prefix_iff_eq_append.mp (by simpa using this)
    calc recomposeAnchor
          ([] :: (decompAnchor ((c :: rest).drop emailAnchor.length)).1,
           (decompAnchor ((c :: rest).drop emailAnchor.length)).2)
        = emailAnchor ++ recomposeAnchor (decompAnchor ((c :: rest).drop emailAnchor.length)) := by
          simp [recomposeAnchor]
      _ = c :: rest := by rw [ih, hd]
  | case3 c rest hpre ih =>
    rw [decompAnchor_cons_skip hpre, recomposeAnchor_consGapA, ih]

theorem update_readme_ok {fact content updated : String}
    (h : subFact fact content = .ok updated) :
    update_readme fact content =
      .ok (if updated = content then subAnchor fact content else updated) := by
  rw [update_readme, h]

theorem update_readme_error {fact content : String} {e : String}
    (h : subFact fact content = .error e) :
    update_readme fact content = .error e := by
  rw [update_readme, h]

theorem no_marker_subFact {content fact : String} {repl : List Char}
    (hr : factReplacement fact.data = .ok repl)
    (h : hasMarker content = false) : subFact fact content = .ok content := by
  have hms : (decomp content.data).1 = [] := by
    have := h
    simp only [hasMarker, Bool.not_eq_false', List.isEmpty_iff] at this
    exact this
  have hrc := recompose_decomp content.data
  rw [recompose, hms] at hrc
  simp only [List.foldr_nil] at hrc
  obtain ⟨l⟩ := content
  rw [subFact, hr]
  simp only [recomposeWith, hms, List.foldr_nil]
  exact congrArg (Except.ok ∘ String.mk) hrc

/-- C2 (amended): when the replacement template for the chosen fact
compiles (the fact does not start with a digit that extends `\1` into a
larger group reference), the fun-fact update replaces the payloads of the
marker matches in place whenever the substitution changes the document
(and then no insertion happens), and falls back to inserting a fun-fact
line after the email anchor exactly when the substitution left the
document unchanged — which happens when the marker is absent, but also
when the marker is present and its payload already equals the chosen
fact; when the template does not compile (the digit-initial `CS_FACTS`
entry `90% …` makes `\1` parse as the invalid group reference 19), the
update raises before examining the document and writes nothing. -/
theorem update_readme_branches (content fact : String) :
    (∀ repl, factReplacement fact.data = .ok repl →
      (hasMarker content = false →
        subFact fact content = .ok content ∧
        update_readme fact content = .ok (subAnchor fact content)) ∧
      (∀ u, subFact fact content = .ok u → u ≠ content →
        hasMarker content = true ∧
        update_readme fact content = .ok u) ∧
      (subFact fact content = .ok content →
        update_readme fact content = .ok (subAnchor fact content))) ∧
    (∀ e, factReplacement fact.data = .error e →
      update_readme fact content = .error e) := by
  constructor
  · intro repl hr
    refine ⟨?_, ?_, ?_⟩
    · intro h
      have hs := no_marker_subFact hr h
      refine ⟨hs, ?_⟩
      rw [update_readme_ok hs, if_pos rfl]
    · intro u hu hne
      constructor
      · by_contra hm
        have := no_marker_subFact hr (Bool.not_eq_true _ ▸ hm)
        rw [hu] at this
        exact hne (by simpa using this)
      · rw [update_readme_ok hu, if_neg hne]
    · intro h
      rw [update_readme_ok h, if_pos rfl]
  · intro e he
    exact update_readme_error (by rw [subFact, he])

/-- C2 witness: on a document without the marker the update takes the
insertion path, on a marker document whose payload differs from the
chosen fact the update is the pure substitution, and with the
digit-initial fact the update raises the invalid-group error. -/
theorem update_readme_branches_witness :
    (subFact "Linux is named after its creator Linus Torvalds." "Hello" = .ok "Hello" ∧
      update_readme "Linux is named after its creator Linus Torvalds." "Hello" =
        .ok (subAnchor "Linux is named after its creator Linus Torvalds." "Hello")) ∧
    (hasMarker "- ⚡ Fun fact **old**" = true ∧
      update_readme "Linux is named after its creator Linus Torvalds."
          "- ⚡ Fun fact **old**" =
        .ok "- ⚡ Fun fact **Linux is named after its creator Linus Torvalds.**") ∧
    update_readme "90% of the world's currency only exists on computers."
        "Hello" =
      .error "invalid group reference 19 at position 1" :=
  ⟨(update_readme_branches "Hello"
        "Linux is named after its creator Linus Torvalds.").1 _ (by rfl) |>.1
      (by simp +decide [hasMarker, decomp, findClose, consGap]),
   ((update_readme_branches "- ⚡ Fun fact **old**"
        "Linux is named after its creator Linus Torvalds.").1 _ (by rfl) |>.2.1
      "- ⚡ Fun fact **Linux is named after its creator Linus Torvalds.**"
      (by simp +decide [subFact, factReplacement, isOctalDigit, decomp, findClose,
            consGap, recomposeWith, funFactMarker, closeStars])
      (by decide)),
   (update_readme_branches "Hello"
        "90% of the world's currency only exists on computers.").2 _ (by rfl)⟩

/-- C2 counterexample: two concrete refutations of the claim as stated.
First, the marker line is present and the chosen fact is one of
`CS_FACTS`, yet the update inserts a duplicate fun-fact line after the
anchor line, because the payload already equals the chosen fact and the
substitution is detected as a no-op.  Second, for the digit-initial
`CS_FACTS` entry the update neither replaces nor inserts: `re.sub` raises
`invalid group reference 19` while compiling the replacement template. -/
theorem update_readme_duplicate_insertion :
    hasMarker "- 📫 How to reach me **surajyadav200701@gmail.com**\n- ⚡ Fun fact **Email existed before the World Wide Web.**" = true ∧
    "Email existed before the World Wide Web." ∈ CS_FACTS ∧
    update_readme "Email existed before the World Wide Web."
        "- 📫 How to reach me **surajyadav200701@gmail.com**\n- ⚡ Fun fact **Email existed before the World Wide Web.**" =
      .ok "- 📫 How to reach me **surajyadav200701@gmail.com**\n- ⚡ Fun fact **Email existed before the World Wide Web.**\n- ⚡ Fun fact **Email existed before the World Wide Web.**" ∧
    "90% of the world's currency only exists on computers." ∈ CS_FACTS ∧
    update_readme "90% of the world's currency only exists on computers."
        "- ⚡ Fun fact **Email existed before the World Wide Web.**" =
      .error "invalid group reference 19 at position 1" := by
  refine ⟨by simp +decide [hasMarker, decomp, findClose, consGap], by decide, ?_,
    by decide, by rfl⟩
  simp +decide [update_readme, subFact, factReplacement, isOctalDigit, subAnchor,
    decomp, decompAnchor, findClose, consGap, consGapA, recomposeWith,
    recomposeAnchorWith, anchorRepl, funFactMarker, emailAnchor, closeStars]

/-- C10: frame property of the update.  When the replacement template for
the chosen fact compiles, the document decomposes into the `re.sub` match
structure (gaps, then the marker plus a payload — for the fallback
pattern, the anchor), and the substitution rebuilds exactly that
structure, changing only the matched regions (respectively only adding
the inserted line after each anchor), so every character outside the
replaced payloads (respectively outside the inserted lines) is preserved,
and since no payload contains a newline only marker lines are modified.
When the template does not compile (the digit-initial `CS_FACTS` entry),
the update raises instead and produces no document at all, leaving every
character untouched. -/
theorem update_frame (content fact : String) :
    (∀ repl, factReplacement fact.data = .ok repl →
      subFact fact content = .ok ⟨recomposeWith repl (decomp content.data)⟩) ∧
    recompose (decomp content.data) = content.data ∧
    (∀ p ∈ (decomp content.data).1.map Prod.snd, '\n' ∉ p) ∧
    (subAnchor fact content).data = recomposeAnchorWith fact.data (decompAnchor content.data) ∧
    recomposeAnchor (decompAnchor content.data) = content.data ∧
    (∀ e, factReplacement fact.data = .error e →
      update_readme fact content = .error e) :=
  ⟨fun _ hr => by rw [subFact, hr], recompose_decomp _, decomp_payloads_no_newline _,
    rfl, recomposeAnchor_decompAnchor _,
    fun _ he => update_readme_error (by rw [subFact, he])⟩

end UpdateFact

namespace GenStats

theorem tanh_lt_one (x : ℝ) : Real.tanh x < 1 := by
  rw [Real.tanh_eq_sinh_div_cosh]
  exact (div_lt_one (Real.cosh_pos x)).mpr (Real.sinh_lt_cosh x)

theorem neg_one_lt_tanh (x : ℝ) : -1 < Real.tanh x := by
  rw [Real.tanh_eq_sinh_div_cosh, lt_div_iff (Real.cosh_pos x)]
  have h1 := Real.cosh_add_sinh x
  have h2 := Real.exp_pos x
  linarith

theorem tanh_le_tanh {x y : ℝ} (h : x ≤ y) : Real.tanh x ≤ Real.tanh y := by
  rw [Real.tanh_eq_sinh_div_cosh, Real.tanh_eq_sinh_div_cosh,
    div_le_div_iff (Real.cosh_pos x) (Real.cosh_pos y)]
  have h1 : Real.sinh (x - y) ≤ 0 := Real.sinh_nonpos_iff.mpr (by linarith)
  rw [Real.sinh_sub] at h1
  linarith

theorem log_norm_nonneg (v m : ℕ) (s : ℚ) : 0 ≤ log_norm v m s := by
  rw [log_norm]
  split
  · exact le_refl 0
  · show 0 ≤ 0.5 * (1 + Real.tanh
      (((Real.log ((v : ℝ) + 1) - Real.log ((m : ℝ) + 1)) / (s : ℝ)) * 0.7))
    nlinarith [neg_one_lt_tanh
      (((Real.log ((v : ℝ) + 1) - Real.log ((m : ℝ) + 1)) / (s : ℝ)) * 0.7)]

theorem log_norm_lt_one (v m : ℕ) (s : ℚ) : log_norm v m s < 1 := by
  rw [log_norm]
  split
  · norm_num
  · show 0.5 * (1 + Real.tanh
      (((Real.log ((v : ℝ) + 1) - Real.log ((m : ℝ) + 1)) / (s : ℝ)) * 0.7)) < 1
    nlinarith [tanh_lt_one
      (((Real.log ((v : ℝ) + 1) - Real.log ((m : ℝ) + 1)) / (s : ℝ)) * 0.7)]

theorem log_norm_le_log_norm (m : ℕ) (s : ℚ) (hs : 0 < s) {v1 v2 : ℕ}
    (h : v1 ≤ v2) : log_norm v1 m s ≤ log_norm v2 m s := by
  rcases Nat.eq_zero_or_pos v1 with hv1 | hv1
  · subst hv1
    have : log_norm 0 m s = 0 := by rw [log_norm, if_pos (le_refl 0)]
    rw [this]
    exact log_norm_nonneg v2 m s
  · have hv2 : 0 < v2 := lt_of_lt_of_le hv1 h
    rw [log_norm, log_norm, if_neg (by omega), if_neg (by omega)]
    show 0.5 * (1 + Real.tanh
        (((Real.log ((v1 : ℝ) + 1) - Real.log ((m : ℝ) + 1)) / (s : ℝ)) * 0.7)) ≤
      0.5 * (1 + Real.tanh
        (((Real.log ((v2 : ℝ) + 1) - Real.log ((m : ℝ) + 1)) / (s : ℝ)) * 0.7))
    have hlog : Real.log ((v1 : ℝ) + 1) ≤ Real.log ((v2 : ℝ) + 1) :=
      Real.log_le_log (by positivity) (by exact_mod_cast Nat.succ_le_succ h)
    have hsr : (0 : ℝ) < (s : ℝ) := by exact_mod_cast hs
    have hz : ((Real.log ((v1 : ℝ) + 1) - Real.log ((m : ℝ) + 1)) / (s : ℝ)) * 0.7 ≤
        ((Real.log ((v2 : ℝ) + 1) - Real.log ((m : ℝ) + 1)) / (s : ℝ)) * 0.7 :=
      mul_le_mul_of_nonneg_right
        ((div_le_div_right hsr).mpr (sub_le_sub_right hlog _)) (by norm_num)
    nlinarith [tanh_le_tanh hz]

theorem log_norm_self (v : ℕ) (s : ℚ) (hv : v ≠ 0) : log_norm v v s = 0.5 := by
  rw [log_norm, if_neg (by omega)]
  show 0.5 * (1 + Real.tanh
      (((Real.log ((v : ℝ) + 1) - Real.log ((v : ℝ) + 1)) / (s : ℝ)) * 0.7)) = 0.5
  rw [sub_self, zero_div, zero_mul, Real.tanh_zero]
  norm_num

theorem log_norm_eq_subscore (v m : ℕ) (s : ℚ) :
    log_norm v m s = subscore_spec (v : ℝ) (m : ℝ) ((s : ℚ) : ℝ) := by
  rcases Nat.eq_zero_or_pos v with hv | hv
  · subst hv
    rw [log_norm, if_pos (le_refl 0), subscore_spec, if_pos (by norm_num)]
  · rw [log_norm, if_neg (by omega), subscore_spec,
      if_neg (not_le.mpr (by exact_mod_cast hv))]
    show 0.5 * (1 + Real.tanh
        (((Real.log ((v : ℝ) + 1) - Real.log ((m : ℝ) + 1)) / (s : ℝ)) * 0.7)) =
      0.5 * (1 + Real.tanh
        (0.7 * (Real.log ((v : ℝ) + 1) - Real.log ((m : ℝ) + 1)) / (s : ℝ)))
    have : ((Real.log ((v : ℝ) + 1) - Real.log ((m : ℝ) + 1)) / (s : ℝ)) * 0.7 =
        0.7 * (Real.log ((v : ℝ) + 1) - Real.log ((m : ℝ) + 1)) / (s : ℝ) := by
      ring
    rw [this]

theorem rank_score_nonneg (stats : RawStats) : 0 ≤ rank_score stats := by
  rw [rank_score]
  have h1 := log_norm_nonneg stats.commits 250 1.5
  have h2 := log_norm_nonneg stats.prs 50 1.5
  have h3 := log_norm_nonneg stats.issues 25 1.5
  have h4 := log_norm_nonneg stats.reviews 10 1.5
  have h5 := log_norm_nonneg stats.stars 50 1.5
  have h6 := log_norm_nonneg stats.followers 10 1.5
  have h7 := log_norm_nonneg stats.contributed_to 5 1.0
  linarith

theorem rank_score_lt_one (stats : RawStats) : rank_score stats < 1 := by
  rw [rank_score]
  have h1 := log_norm_lt_one stats.commits 250 1.5
  have h2 := log_norm_lt_one stats.prs 50 1.5
  have h3 := log_norm_lt_one stats.issues 25 1.5
  have h4 := log_norm_lt_one stats.reviews 10 1.5
  have h5 := log_norm_lt_one stats.stars 50 1.5
  have h6 := log_norm_lt_one stats.followers 10 1.5
  have h7 := log_norm_lt_one stats.contributed_to 5 1.0
  have n1 := log_norm_nonneg stats.commits 250 1.5
  have n2 := log_norm_nonneg stats.prs 50 1.5
  have n3 := log_norm_nonneg stats.issues 25 1.5
  have n4 := log_norm_nonneg stats.reviews 10 1.5
  have n5 := log_norm_nonneg stats.stars 50 1.5
  have n6 := log_norm_nonneg stats.followers 10 1.5
  have n7 := log_norm_nonneg stats.contributed_to 5 1.0
  nlinarith

/-- C1: the score `calculate_rank` computes is exactly the weighted sum of
the spec's `subscore` over the seven metrics, with the fixed medians,
spreads and weights (the clamp `min · 1.0` never binds, because every
sub-score is below `1` and the weights sum to `1`). -/
theorem calculate_rank_weighted_sum (stats : RawStats) :
    rank_score stats =
      0.30 * subscore_spec (stats.commits : ℝ) 250 1.5 +
      0.20 * subscore_spec (stats.prs : ℝ) 50 1.5 +
      0.10 * subscore_spec (stats.issues : ℝ) 25 1.5 +
      0.10 * subscore_spec (stats.reviews : ℝ) 10 1.5 +
      0.15 * subscore_spec (stats.stars : ℝ) 50 1.5 +
      0.05 * subscore_spec (stats.followers : ℝ) 10 1.5 +
      0.10 * subscore_spec (stats.contributed_to : ℝ) 5 1.0 ∧
    (calculate_rank stats).2 = rank_score stats := by
  constructor
  · rw [rank_score]
    simp only [log_norm_eq_subscore]
    push_cast
    ring
  · show min (rank_score stats) 1 = rank_score stats
    exact min_eq_left (le_of_lt (rank_score_lt_one stats))

/-- C5: at each of the five distinct (median, spread) pairs the seven
metrics use, `log_norm` is monotonically non-decreasing in the value, and
for every median and spread it is bounded in `[0, 1]`. -/
theorem log_norm_monotone_bounded (v1 v2 : ℕ) (h : v1 ≤ v2) :
    (log_norm v1 250 1.5 ≤ log_norm v2 250 1.5) ∧
    (log_norm v1 50 1.5 ≤ log_norm v2 50 1.5) ∧
    (log_norm v1 25 1.5 ≤ log_norm v2 25 1.5) ∧
    (log_norm v1 10 1.5 ≤ log_norm v2 10 1.5) ∧
    (log_norm v1 5 1.0 ≤ log_norm v2 5 1.0) ∧
    ∀ (v m : ℕ) (s : ℚ), 0 ≤ log_norm v m s ∧ log_norm v m s ≤ 1 := by
  have hs : (0 : ℚ) < 1.5 := by norm_num
  have hs1 : (0 : ℚ) < 1.0 := by norm_num
  exact ⟨log_norm_le_log_norm 250 1.5 hs h, log_norm_le_log_norm 50 1.5 hs h,
    log_norm_le_log_norm 25 1.5 hs h, log_norm_le_log_norm 10 1.5 hs h,
    log_norm_le_log_norm 5 1.0 hs1 h,
    fun v m s => ⟨log_norm_nonneg v m s, le_of_lt (log_norm_lt_one v m s)⟩⟩

/-- C5 witness: monotonicity at concrete values `2 ≤ 3`, and the bounds at
the commits metric (median 250, spread 1.5). -/
theorem log_norm_monotone_bounded_witness :
    log_norm 2 250 1.5 ≤ log_norm 3 250 1.5 ∧
    (0 ≤ log_norm 7 250 1.5 ∧ log_norm 7 250 1.5 ≤ 1) :=
  ⟨(log_norm_monotone_bounded 2 3 (by decide)).1,
   (log_norm_monotone_bounded 2 3 (by decide)).2.2.2.2.2 7 250 1.5⟩

/-- C6: the score `calculate_rank` returns (clamped to at most `1.0`)
lies in `[0, 1]`. -/
theorem calculate_rank_score_in_unit (stats : RawStats) :
    0 ≤ (calculate_rank stats).2 ∧ (calculate_rank stats).2 ≤ 1 := by
  constructor
  · show 0 ≤ min (rank_score stats) 1
    exact le_min (rank_score_nonneg stats) zero_le_one
  · exact min_le_right _ _

/-- C3: at the fixed stats whose seven metric values sit exactly at the
seven medians, every per-metric sub-score is `0.5`, the composite score is
`0.5`, and the selected label is `"A"` (the `>= 0.50` bucket). -/
theorem calculate_rank_at_medians :
    log_norm 250 250 1.5 = 0.5 ∧ log_norm 50 50 1.5 = 0.5 ∧
    log_norm 25 25 1.5 = 0.5 ∧ log_norm 10 10 1.5 = 0.5 ∧
    log_norm 50 50 1.5 = 0.5 ∧ log_norm 10 10 1.5 = 0.5 ∧
    log_norm 5 5 1.0 = 0.5 ∧
    calculate_rank ⟨"suraj-yadav0", 50, 250, 50, 25, 5, 10, 10, 8⟩ = ("A", 0.5) := by
  have h250 := log_norm_self 250 1.5 (by decide)
  have h50 := log_norm_self 50 1.5 (by decide)
  have h25 := log_norm_self 25 1.5 (by decide)
  have h10 := log_norm_self 10 1.5 (by decide)
  have h5 := log_norm_self 5 1.0 (by decide)
  have hscore : rank_score ⟨"suraj-yadav0", 50, 250, 50, 25, 5, 10, 10, 8⟩ = 0.5 := by
    rw [rank_score]
    simp only [h250, h50, h25, h10, h5]
    norm_num
  refine ⟨h250, h50, h25, h10, h50, h10, h5, ?_⟩
  rw [calculate_rank, hscore]
  norm_num [pick_rank, ranks, min_def]

set_option maxHeartbeats 1000000 in
/-- C4: rank-label selection is total on scores and scans the thresholds
from highest to lowest: the eight labels partition the score line into the
eight half-open buckets below, with `"C"` selected exactly when no
threshold is met. -/
theorem pick_rank_buckets (s : ℝ) :
    (pick_rank s ranks = "S+" ↔ 0.95 ≤ s) ∧
    (pick_rank s ranks = "S" ↔ 0.85 ≤ s ∧ s < 0.95) ∧
    (pick_rank s ranks = "A++" ↔ 0.75 ≤ s ∧ s < 0.85) ∧
    (pick_rank s ranks = "A+" ↔ 0.65 ≤ s ∧ s < 0.75) ∧
    (pick_rank s ranks = "A" ↔ 0.50 ≤ s ∧ s < 0.65) ∧
    (pick_rank s ranks = "B+" ↔ 0.35 ≤ s ∧ s < 0.50) ∧
    (pick_rank s ranks = "B" ↔ 0.20 ≤ s ∧ s < 0.35) ∧
    (pick_rank s ranks = "C" ↔ s < 0.20) := by
  rw [ranks]
  simp only [pick_rank]
  split_ifs with h1 h2 h3 h4 h5 h6 h7 <;>
    refine ⟨?_, ?_, ?_, ?_, ?_, ?_, ?_, ?_⟩ <;>
    constructor <;>
    intro hh <;>
    first
      | rfl
      | linarith
      | (constructor <;> linarith)
      | (simp only [String.reduceEq] at hh)

/-- C9: `format_number` renders numbers below `1000` as plain decimal
strings, numbers in `[1000, 1000000)` as the value over `1000` to one
decimal place with a `"k"` suffix, and numbers from `1000000` up as the
value over `1000000` to one decimal place with an `"M"` suffix; in
particular `999 ↦ "999"`, `1500 ↦ "1.5k"` and `2500000 ↦ "2.5M"`. -/
theorem format_number_spec :
    (∀ n : ℕ, n < 1000 → format_number n = toString n) ∧
    (∀ n : ℕ, 1000 ≤ n → n < 1000000 → format_number n = fmt1f n 1000 ++ "k") ∧
    (∀ n : ℕ, 1000000 ≤ n → format_number n = fmt1f n 1000000 ++ "M") ∧
    format_number 999 = "999" ∧
    format_number 1500 = "1.5k" ∧
    format_number 2500000 = "2.5M" := by
  refine ⟨?_, ?_, ?_, by decide, by decide, by decide⟩
  · intro n h
    rw [format_number, if_neg (by omega), if_neg (by omega)]
  · intro n h1 h2
    rw [format_number, if_neg (by omega), if_pos (by omega)]
  · intro n h
    rw [format_number, if_pos (by omega)]

/-- C8: for every stats input the rendered card carries exactly five
metric rows, and its single progress ring has
`stroke-dashoffset = circumference * (1 - score)` for the circumference
`2 * 3.14159 * 40` and the clamped rank score. -/
theorem generate_svg_rows_ring (stats : RawStats) :
    (generate_svg stats).rows.length = 5 ∧
    (generate_svg stats).ringCircumference = 2 * 3.14159 * 40 ∧
    (generate_svg stats).progressOffset =
      2 * 3.14159 * 40 * (1 - (calculate_rank stats).2) := by
  refine ⟨rfl, ?_, ?_⟩ <;> norm_num [generate_svg]

/-- C7 (amended): the run exits non-zero and writes nothing when the HTTP
request fails (reporting the status code and reason), when the response
carries an application-level error list (reported verbatim), and also
when the `GITHUB_TOKEN` environment variable is missing; it exits zero,
writing the SVG, exactly when the token is present and the fetch succeeds
without errors. -/
theorem run_main_exit_behavior (tok : Bool) (outcome : FetchOutcome) :
    ((run_main tok outcome).exitCode = 0 ↔
      tok = true ∧ ∃ e stats, outcome = .success false e stats) ∧
    ((run_main tok outcome).exitCode ≠ 0 → (run_main tok outcome).written = none) ∧
    (∀ code reason, tok = true → outcome = .httpError code reason →
      (run_main tok outcome).errorMsg =
        some ("❌ GitHub API error: " ++ toString code ++ " " ++ reason)) ∧
    (∀ e stats, tok = true → outcome = .success true e stats →
      (run_main tok outcome).errorMsg = some ("❌ GraphQL errors: " ++ e)) ∧
    (∀ e stats, tok = true → outcome = .success false e stats →
      (run_main tok outcome).exitCode = 0 ∧
      (run_main tok outcome).written = some (generate_svg stats)) ∧
    (tok = false → (run_main tok outcome).exitCode = 1 ∧
      (run_main tok outcome).written = none) := by
  cases tok <;> rcases outcome with ⟨code, reason⟩ | ⟨he, e, st⟩ <;>
    first
      | (cases he <;> simp [run_main])
      | simp [run_main]

/-- C7 counterexample: with the token missing but a fetch outcome that has
no HTTP failure and no error list, the run still exits with status 1 (the
claim as stated would require a zero exit here). -/
theorem run_main_missing_token_nonzero :
    (run_main false (.success false "" ⟨"", 0, 0, 0, 0, 0, 0, 0, 0⟩)).exitCode = 1 ∧
    (run_main false (.success false "" ⟨"", 0, 0, 0, 0, 0, 0, 0, 0⟩)).written = none := by
  constructor <;> rfl

end GenStats
